import Mathlib

/-!
Shallow embedding of `src/rate_based_rule_provider.py` (class
`RateBasedRuleProvider`): the predicate reconciler inside `update`, the
change-token waiter `wait_on_status`, and the `create` / `update` / `delete`
lifecycle handlers.  External calls (the WAF SDK client) are modelled as an
environment of call results; the framework's `success` / `fail` calls and the
`physical_resource_id` assignments are recorded as explicit outcome fields.
-/

namespace RateBasedRuleProvider

/-- A WAF match predicate as carried in the request JSON: a record of up to
three keys (`Negated`, `Type`, `DataId`).  A malformed request may omit keys
(`missing_fields` detects this), so each field is an `Option`.  Dictionary
equality (`new_predicate != old_predicate` in the source) is structural
equality of this record. -/
structure Predicate where
  Negated : Option Bool
  «Type» : Option String
  DataId : Option String
deriving DecidableEq, Repr

/-- `required_fields = ['Negated', 'Type', 'DataId']` from `missing_fields`
inside `update`. -/
def required_fields : List String := ["Negated", "Type", "DataId"]

/-- Whether the request record carries the given key (membership test
`set(kwargs)` in `missing_fields`). -/
def hasField (kwargs : Predicate) (f : String) : Bool :=
  if f = "Negated" then kwargs.Negated.isSome
  else if f = "Type" then kwargs.«Type».isSome
  else if f = "DataId" then kwargs.DataId.isSome
  else false

/-- `missing_fields(kwargs) = set(required_fields) - set(kwargs)`: the required
keys not present on the predicate (kept in `required_fields` order since the
Lean model uses a list where Python uses a set). -/
def missing_fields (kwargs : Predicate) : List String :=
  required_fields.filter (fun f => !(hasField kwargs f))

/-- `find_old_predicate(new_pred, old_preds)`: the scan loop in the source
returns unconditionally on its first iteration (`return old_pred` or
`return None` inside the loop body), so only the head of a non-empty
collection is ever compared; an empty collection falls through to the
implicit `None`. -/
def find_old_predicate (new_pred : Predicate) (old_preds : List Predicate) :
    Option Predicate :=
  match old_preds with
  | [] => none
  | old_pred :: _ =>
    if new_pred.DataId = old_pred.DataId then some old_pred else none

/-- One change entry `{'Action': 'DELETE' | 'INSERT', 'Predicate': ...}`. -/
structure ChangeOp where
  Action : String
  «Predicate» : Predicate
deriving DecidableEq, Repr

/-- The failure text of `self.fail(f"Predicate {new_predicate} is missing
required fields: {missing}")`, rendered via `Repr` in the model. -/
def missing_message (new_predicate : Predicate) (missing : List String) : String :=
  "Predicate " ++ toString (repr new_predicate) ++
    " is missing required fields: " ++ toString missing

/-- The Python `TypeError` raised by `old_predicates.pop(old_predicate, None)`
when `old_predicates` is a list: `list.pop` takes at most one (index)
argument, so the call raises unconditionally, before any comparison. -/
def typeErrorPop : String := "TypeError: pop expected at most 1 argument, got 2"

/-- Result of the first loop of `update`: the surviving working collection
with the accumulated delete / insert entries, a validation failure
(`self.fail(msg)`, `return`), or the unconditional `TypeError` from
`list.pop(old_predicate, None)`. -/
inductive LoopResult where
  | ok : Option (List Predicate) → List ChangeOp → List ChangeOp → LoopResult
  | failCall : String → LoopResult
  | typeError : LoopResult
deriving DecidableEq, Repr

/-- Result of the whole list-building phase of `update` (first loop plus the
trailing delete-the-rest loop). -/
inductive ListsResult where
  | ok : List ChangeOp × List ChangeOp → ListsResult
  | failCall : String → ListsResult
  | typeError : ListsResult
deriving DecidableEq, Repr

/-- The elements of the working collection
`{} if 'MatchPredicates' not in self.old_properties else
self.old_properties['MatchPredicates']`: iterating the empty dict (`none`)
yields nothing, iterating the stored list (`some l`) yields its elements. -/
def oldList : Option (List Predicate) → List Predicate
  | none => []
  | some l => l

/-- The first loop of `update` (the `if not remove_all` body), over the
working collection: `none` models the empty dict `{}` (the
`'MatchPredicates' not in self.old_properties` case), `some l` models the
stored predicate list.  For each requested predicate: a missing required
field fails the whole operation (`self.fail(...)`, `return`); otherwise
`find_old_predicate` runs and then `old_predicates.pop(old_predicate, None)`
executes.  Over the empty dict the scan loop has nothing to iterate, so
`old_predicate` is `None`, `{}.pop(None, None)` is a no-op, and the
`elif old_predicate is None` arm inserts the predicate.  Over a list,
`list.pop` called with two arguments raises `TypeError` unconditionally (it
accepts at most one index argument), so the first valid requested predicate
crashes the operation there. -/
def processNew : List Predicate → Option (List Predicate) → List ChangeOp →
    List ChangeOp → LoopResult
  | [], old_predicates, deletes, inserts => .ok old_predicates deletes inserts
  | new_predicate :: rest, old_predicates, deletes, inserts =>
    let missing := missing_fields new_predicate
    if missing = [] then
      match old_predicates with
      | none =>
        processNew rest none deletes (inserts ++ [⟨"INSERT", new_predicate⟩])
      | some _ => .typeError
    else
      .failCall (missing_message new_predicate missing)

/-- The trailing loop of `update`'s list-building phase: append a DELETE entry
for every previous predicate still in the working collection. -/
def finish_lists : LoopResult → ListsResult
  | .ok remaining deletes inserts =>
    .ok (deletes ++ (oldList remaining).map (fun p => ⟨"DELETE", p⟩), inserts)
  | .failCall msg => .failCall msg
  | .typeError => .typeError

/-- The delete / insert lists computed by `update` before the payload is
built: the first loop (skipped entirely when `remove_all` is set) followed by
the trailing loop.  The `old_predicates : List Predicate` argument is the
stored-list form of the working collection; the `new_predicates` argument is
unread when `remove_all` is set, exactly as the source never touches the
request in that branch.  (`update_run` inlines the non-`remove_all` case
because there the empty-dict / stored-list distinction changes behaviour.) -/
def update_lists (remove_all : Bool) (old_predicates new_predicates : List Predicate) :
    ListsResult :=
  if remove_all then
    .ok (old_predicates.map (fun p => ⟨"DELETE", p⟩), [])
  else
    finish_lists (processNew new_predicates (some old_predicates) [] [])

/-- A `botocore` `ClientError`, reduced to the message text the handlers use
(`f'{error}'` and `error.response['Error']['Message']`). -/
structure ClientError where
  message : String
deriving DecidableEq, Repr

/-- The dict `wait_on_status` returns on the non-exception paths:
`{"Success": ..., "Reason": ...}`. -/
structure StatusRecord where
  Success : Bool
  Reason : String
deriving DecidableEq, Repr

/-- Observable behaviour of one `wait_on_status` call: how many
`get_change_token_status` queries were issued, the `time.sleep` intervals in
order, the returned value (`none` models Python's implicit `return None` on
the exception path), and the exception-path side effects
(`self.physical_resource_id = 'failed-to-create'` and `self.fail(...)`). -/
structure WaitOutcome where
  checks : Nat
  sleeps : List Nat
  result : Option StatusRecord
  failedToCreate : Bool
  failMsg : Option String
deriving DecidableEq, Repr

/-- The `Reason` text of the retry-budget failure:
`f"Max retries ({max_retries}) reached, something must have gone wrong."`. -/
def max_retries_reason (max_retries : Nat) : String :=
  "Max retries (" ++ toString max_retries ++
    ") reached, something must have gone wrong."

/-- `wait_on_status(change_token, current_retry, interval=30, max_interval=30,
max_retries=15)`.  The status of each query is supplied by `oracle`, indexed
by `current_retry` (each recursive call increments the retry counter by one
and performs exactly one query).  Note the recursive call in the source passes
only `current_retry` and `interval`, so `max_interval` and `max_retries`
revert to their defaults `30` and `15` after the first check. -/
def wait_on_status (oracle : Nat → Except ClientError String)
    (current_retry interval max_interval max_retries : Nat) : WaitOutcome :=
  match oracle current_retry with
  | .error e => ⟨1, [], none, true, some e.message⟩
  | .ok s =>
    if s ≠ "INSYNC" then
      if current_retry ≥ max_retries then
        ⟨1, [], some ⟨false, max_retries_reason max_retries⟩, false, none⟩
      else
        let r := wait_on_status oracle (current_retry + 1)
          (min (interval + interval) max_interval) 30 15
        ⟨r.checks + 1, interval :: r.sleeps, r.result, r.failedToCreate, r.failMsg⟩
    else
      ⟨1, [], some ⟨true, ""⟩, false, none⟩
termination_by max (max_retries + 1) 16 - current_retry
decreasing_by simp_wf; omega

/-- A status oracle that always answers the non-terminal status `PENDING`. -/
def pendingOracle : Nat → Except ClientError String := fun _ => .ok "PENDING"

/-- A status oracle that always answers the terminal status `INSYNC`. -/
def insyncOracle : Nat → Except ClientError String := fun _ => .ok "INSYNC"

/-- A status oracle whose query always raises a transport-level error. -/
def errOracle : Nat → Except ClientError String :=
  fun _ => .error ⟨"ConnectionError: transport failure"⟩

/-- The Python `TypeError` raised when a handler subscripts the `None` that
`wait_on_status` returns after a transport error. -/
def typeErrorNone : String := "TypeError: NoneType object is not subscriptable"

/-- Final signal of one handler invocation: the last `self.success(msg)` call,
the last `self.fail(reason)` call, or an uncaught exception (`crashed`; a
non-`ClientError` exception escaping the handler). -/
inductive MethodOutcome where
  | success : String → MethodOutcome
  | failed : String → MethodOutcome
  | crashed : String → MethodOutcome
deriving DecidableEq, Repr

/-- Whether an outcome is an uncaught exception. -/
def MethodOutcome.isCrashed : MethodOutcome → Bool
  | .crashed _ => true
  | _ => false

/-- Whether `pat` occurs as a contiguous run inside the character list. -/
def listContains (pat : List Char) : List Char → Bool
  | [] => decide (pat = [])
  | c :: t => pat.isPrefixOf (c :: t) || listContains pat t

/-- Python's `pat in s` substring containment (used on the error message in
`delete`'s `except` clause). -/
def containsSub (s pat : String) : Bool :=
  listContains pat.toList s.toList

/-- One element of the `Updates` value submitted to the service.  The service
API expects flat change entries (`changeOp`); the source instead appends the
two lists themselves, producing nested lists (`opList`). -/
inductive UpdatesItem where
  | changeOp : ChangeOp → UpdatesItem
  | opList : List ChangeOp → UpdatesItem
deriving DecidableEq, Repr

/-- The keyword payload of `client.update_rate_based_rule(**updates)`:
`RuleId`, `RateLimit`, `Updates` and `ChangeToken`. -/
structure UpdatePayload where
  RuleId : String
  RateLimit : Int
  «Updates» : List UpdatesItem
  ChangeToken : String
deriving DecidableEq, Repr

/-- The `Updates` value as claim C6 / spec §4.2 step 5 describe it: the
combined delete list followed by the insert list, one flat sequence of change
entries.  Defined only to compare the specified payload with the one the code
builds. -/
def spec_updates_value (deletes inserts : List ChangeOp) : List UpdatesItem :=
  (deletes ++ inserts).map (fun op => .changeOp op)

/-- The provider state an `update` invocation reads: the `remove_all` flag,
`self.old_properties['MatchPredicates']` (`none` when the key is absent, so
the working collection is the empty dict `{}`; `some l` when the stored list
is present), `self.request['ResourceProperties']['Updates']` (`none` when the
key is absent, in which case reading it raises `KeyError`), `self.properties
['RateLimit']` and `self.physical_resource_id`. -/
structure UpdateArgs where
  remove_all : Bool
  old_properties : Option (List Predicate)
  new_predicates : Option (List Predicate)
  RateLimit : Int
  physical_resource_id : String

/-- Results of the external calls an `update` invocation makes:
`client.get_change_token()['ChangeToken']`, `client.update_rate_based_rule`
(its response `ChangeToken`), and the per-retry results of
`client.get_change_token_status`. -/
structure UpdateEnv where
  get_change_token : Except ClientError String
  update_rate_based_rule : Except ClientError String
  statuses : Nat → Except ClientError String

/-- Observable behaviour of one `update` invocation: the service calls made in
order, the payload passed to `update_rate_based_rule` (if reached), the final
signal, and whether the waiter's exception path set
`physical_resource_id = 'failed-to-create'`. -/
structure UpdateRun where
  calls : List String
  submitted : Option UpdatePayload
  outcome : MethodOutcome
  failedToCreate : Bool
deriving DecidableEq, Repr

/-- The tail of `update` from the computed delete / insert lists on: the
validation failure (`self.fail`, `return`) or the `list.pop` `TypeError` if
the lists computation aborted (both happen before the `try` block, so no
service call is made), otherwise build the payload with
`Updates = [deletes, inserts]`, obtain a change token, submit, wait on the
returned token, and signal from `status['Success']`
(`try ... except ClientError` around the three calls; a `None` status makes
the subscript raise `TypeError`, which the `except` does not catch). -/
def update_submit (a : UpdateArgs) (env : UpdateEnv)
    (lists : ListsResult) : UpdateRun :=
  match lists with
  | .typeError => ⟨[], none, .crashed typeErrorPop, false⟩
  | .failCall msg => ⟨[], none, .failed msg, false⟩
  | .ok (deletes, inserts) =>
    match env.get_change_token with
    | .error e => ⟨["get_change_token"], none, .failed e.message, false⟩
    | .ok token =>
      let payload : UpdatePayload :=
        ⟨a.physical_resource_id, a.RateLimit,
          [.opList deletes, .opList inserts], token⟩
      match env.update_rate_based_rule with
      | .error e =>
        ⟨["get_change_token", "update_rate_based_rule"], some payload,
          .failed e.message, false⟩
      | .ok _change_token =>
        let w := wait_on_status env.statuses 0 30 30 15
        let calls := ["get_change_token", "update_rate_based_rule"] ++
          List.replicate w.checks "get_change_token_status"
        match w.result with
        | none => ⟨calls, some payload, .crashed typeErrorNone, w.failedToCreate⟩
        | some st =>
          if st.Success then
            ⟨calls, some payload, .success "Update is done.", w.failedToCreate⟩
          else
            ⟨calls, some payload, .failed st.Reason, w.failedToCreate⟩

/-- `RateBasedRuleProvider.update(remove_all=False)`: compute the delete /
insert lists (first loop skipped when `remove_all`, so the `pop` line is
never reached there; reading the absent `Updates` key raises `KeyError`) and
run the submission tail.  The non-`remove_all` case is inlined over
`a.old_properties` because the empty-dict / stored-list distinction of the
working collection decides between the insert path and the `pop`
`TypeError`. -/
def update_run (a : UpdateArgs) (env : UpdateEnv) : UpdateRun :=
  if a.remove_all then
    update_submit a env (update_lists true (oldList a.old_properties) [])
  else
    match a.new_predicates with
    | none => ⟨[], none, .crashed "KeyError: Updates", false⟩
    | some new_predicates =>
      update_submit a env
        (finish_lists (processNew new_predicates a.old_properties [] []))

/-- The provider state a `create` invocation reads: whether `'Updates' in
self.properties`, and the state the nested `self.update()` call will read
(its `physical_resource_id` is overwritten with the rule id the create call
returns). -/
structure CreateArgs where
  hasUpdates : Bool
  updateArgs : UpdateArgs

/-- Results of the external calls a `create` invocation makes. -/
structure CreateEnv where
  get_change_token : Except ClientError String
  create_rate_based_rule : Except ClientError (String × String)
  statuses : Nat → Except ClientError String
  updateEnv : UpdateEnv

/-- Observable behaviour of one `create` invocation: the final
`physical_resource_id` and the final signal. -/
structure CreateRun where
  physical_resource_id : Option String
  outcome : MethodOutcome
deriving DecidableEq, Repr

/-- `RateBasedRuleProvider.create`: obtain a change token, create the rule,
store `response['Rule']['RuleId']`, wait for convergence, then — on a
successful wait — run the nested `self.update()` when the request carries
`Updates`, and signal success from the create-phase `status['Success']`
(still true regardless of what the nested update signalled).  A `ClientError`
from either call sets `physical_resource_id = 'failed-to-create'` and fails;
an exception escaping the nested update (or the `TypeError` from subscripting
a `None` status) is not a `ClientError` and escapes `create` too. -/
def create_run (a : CreateArgs) (env : CreateEnv) : CreateRun :=
  match env.get_change_token with
  | .error e => ⟨some "failed-to-create", .failed e.message⟩
  | .ok _token =>
    match env.create_rate_based_rule with
    | .error e => ⟨some "failed-to-create", .failed e.message⟩
    | .ok (ruleId, _change_token) =>
      let w := wait_on_status env.statuses 0 30 30 15
      let prid := if w.failedToCreate then some "failed-to-create" else some ruleId
      match w.result with
      | none => ⟨prid, .crashed typeErrorNone⟩
      | some st =>
        if st.Success then
          if a.hasUpdates then
            let u := update_run
              { a.updateArgs with physical_resource_id := ruleId } env.updateEnv
            let prid2 := if u.failedToCreate then some "failed-to-create" else prid
            match u.outcome with
            | .crashed msg => ⟨prid2, .crashed msg⟩
            | _ => ⟨prid2, .success "Create and update are done."⟩
          else ⟨prid, .success "Create is done."⟩
        else ⟨prid, .failed st.Reason⟩

/-- Results of the external calls a `delete` invocation makes (the nested
`self.update(remove_all=True)` has its own environment). -/
structure DeleteEnv where
  updateEnv : UpdateEnv
  get_change_token : Except ClientError String
  delete_rate_based_rule : Except ClientError String
  statuses : Nat → Except ClientError String

/-- Observable behaviour of one `delete` invocation: the final signal. -/
structure DeleteRun where
  outcome : MethodOutcome
deriving DecidableEq, Repr

/-- `RateBasedRuleProvider.delete`: run `self.update(remove_all=True)` (an
exception escaping it aborts `delete` too; a mere `self.fail` from it is
overridden by the later signals), then obtain a change token, call
`delete_rate_based_rule`, wait, and signal from `status['Success']`.  A
`ClientError` whose message contains `WAFNonexistentItemException` is treated
as success (`self.success()` with no message); any other `ClientError`
fails. -/
def delete_run (a : UpdateArgs) (env : DeleteEnv) : DeleteRun :=
  let u := update_run { a with remove_all := true } env.updateEnv
  match u.outcome with
  | .crashed msg => ⟨.crashed msg⟩
  | _ =>
    match env.get_change_token with
    | .error e =>
      if containsSub e.message "WAFNonexistentItemException" then ⟨.success ""⟩
      else ⟨.failed e.message⟩
    | .ok _token =>
      match env.delete_rate_based_rule with
      | .error e =>
        if containsSub e.message "WAFNonexistentItemException" then ⟨.success ""⟩
        else ⟨.failed e.message⟩
      | .ok _change_token =>
        let w := wait_on_status env.statuses 0 30 30 15
        match w.result with
        | none => ⟨.crashed typeErrorNone⟩
        | some st =>
          if st.Success then ⟨.success "Delete is done."⟩
          else ⟨.failed st.Reason⟩

/-! Concrete inputs used by witnesses and counterexamples. -/

/-- A fully populated request predicate. -/
def p1 : Predicate := ⟨some false, some "IPMatch", some "data-1"⟩

/-- A request predicate missing its `Type` field. -/
def pBad : Predicate := ⟨some false, none, some "data-2"⟩

/-- Update arguments: insert `p1` into a rule with no previous predicates. -/
def aInsert : UpdateArgs := ⟨false, none, some [p1], 2000, "rule-1"⟩

/-- Update arguments whose requested predicate list contains `pBad` (no
previous `MatchPredicates` stored, so the working collection is `{}`). -/
def aBad : UpdateArgs := ⟨false, none, some [pBad], 2000, "rule-1"⟩

/-- Update arguments with previous `MatchPredicates` stored (a list) and a
valid requested predicate ahead of the field-missing one. -/
def aCrash : UpdateArgs := ⟨false, some [p1], some [p1, pBad], 2000, "rule-1"⟩

/-- Update environment where every call succeeds and the first status query
answers `INSYNC`. -/
def envOkUpdate : UpdateEnv := ⟨.ok "token-1", .ok "ct-1", insyncOracle⟩

/-- Update environment where `update_rate_based_rule` raises. -/
def envErrCallUpdate : UpdateEnv :=
  ⟨.ok "token-1", .error ⟨"UpdateFailure"⟩, insyncOracle⟩

/-- Update environment where the status query raises. -/
def envErrStatusUpdate : UpdateEnv := ⟨.ok "token-1", .ok "ct-1", errOracle⟩

/-- Create arguments with `Updates` present in the request. -/
def aCreate : CreateArgs := ⟨true, aInsert⟩

/-- Create environment where `create_rate_based_rule` raises. -/
def cEnvErr : CreateEnv :=
  ⟨.ok "token-c", .error ⟨"CreateFailure"⟩, insyncOracle, envOkUpdate⟩

/-- Create environment where the create-phase status query raises. -/
def cEnvStatusErr : CreateEnv :=
  ⟨.ok "token-c", .ok ("rule-1", "ct-c"), errOracle, envOkUpdate⟩

/-- Create environment where create converges but the nested update's
`update_rate_based_rule` call raises (so the nested update fails). -/
def cEnvUpdFail : CreateEnv :=
  ⟨.ok "token-c", .ok ("rule-1", "ct-c"), insyncOracle, envErrCallUpdate⟩

/-- Delete environment where `delete_rate_based_rule` raises the
not-found error. -/
def dEnvNotFound : DeleteEnv :=
  ⟨envOkUpdate, .ok "token-d",
    .error ⟨"An error occurred (WAFNonexistentItemException) when calling the DeleteRateBasedRule operation"⟩,
    insyncOracle⟩

/-- Delete environment where the delete-phase status query raises. -/
def dEnvStatusErr : DeleteEnv :=
  ⟨envOkUpdate, .ok "token-d", .ok "ct-d", errOracle⟩

/-!  Theorems.  First general lemmas about the embedded definitions, then one
theorem (plus counterexample / witness where required) per claim. -/

/-- Step lemma: a query answering `INSYNC` returns the success record at once. -/
theorem wait_insync (oracle : Nat → Except ClientError String)
    (cr i mi mr : Nat) (h : oracle cr = .ok "INSYNC") :
    wait_on_status oracle cr i mi mr = ⟨1, [], some ⟨true, ""⟩, false, none⟩ := by
  conv_lhs => rw [wait_on_status.eq_def]
  rw [h]
  simp

/-- Step lemma: a query raising `ClientError` sets the failed-to-create marker,
records the failure message and returns `None`. -/
theorem wait_error (oracle : Nat → Except ClientError String)
    (cr i mi mr : Nat) (e : ClientError) (h : oracle cr = .error e) :
    wait_on_status oracle cr i mi mr = ⟨1, [], none, true, some e.message⟩ := by
  conv_lhs => rw [wait_on_status.eq_def]
  rw [h]

/-- Step lemma: a non-terminal status with the retry budget exhausted returns
the bounded failure record. -/
theorem wait_exhausted (oracle : Nat → Except ClientError String)
    (cr i mi mr : Nat) (s : String) (h : oracle cr = .ok s)
    (hs : s ≠ "INSYNC") (hm : mr ≤ cr) :
    wait_on_status oracle cr i mi mr =
      ⟨1, [], some ⟨false, max_retries_reason mr⟩, false, none⟩ := by
  conv_lhs => rw [wait_on_status.eq_def]
  rw [h]
  simp [hs, hm]

/-- Step lemma: a non-terminal status with budget remaining sleeps for
`interval` and retries with `current_retry + 1` and
`interval = min(interval + interval, max_interval)`; the recursive call takes
the default `max_interval = 30` and `max_retries = 15`. -/
theorem wait_retry (oracle : Nat → Except ClientError String)
    (cr i mi mr : Nat) (s : String) (h : oracle cr = .ok s)
    (hs : s ≠ "INSYNC") (hm : cr < mr) :
    wait_on_status oracle cr i mi mr =
      (let r := wait_on_status oracle (cr + 1) (min (i + i) mi) 30 15
       ⟨r.checks + 1, i :: r.sleeps, r.result, r.failedToCreate, r.failMsg⟩) := by
  conv_lhs => rw [wait_on_status.eq_def]
  rw [h]
  simp [hs, Nat.not_le.mpr hm]

theorem pendingOracle_ok : ∀ n, ∃ s, pendingOracle n = .ok s ∧ s ≠ "INSYNC" :=
  fun _ => ⟨"PENDING", rfl, by decide⟩

/-- In the default recursive regime (`max_interval = 30`, `max_retries = 15`),
an oracle that keeps answering non-terminal statuses makes the waiter check
`15 - cr + 1` more times and return the bounded failure record. -/
theorem wait_default_pending (oracle : Nat → Except ClientError String)
    (hok : ∀ n, ∃ s, oracle n = .ok s ∧ s ≠ "INSYNC") :
    ∀ d cr i, 15 - cr = d → cr ≤ 15 →
      (wait_on_status oracle cr i 30 15).checks = d + 1 ∧
      (wait_on_status oracle cr i 30 15).result =
        some ⟨false, max_retries_reason 15⟩ := by
  intro d
  induction d with
  | zero =>
    intro cr i h1 h2
    obtain ⟨s, hs, hsne⟩ := hok cr
    rw [wait_exhausted oracle cr i 30 15 s hs hsne (by omega)]
    exact ⟨rfl, rfl⟩
  | succ d ih =>
    intro cr i h1 h2
    obtain ⟨s, hs, hsne⟩ := hok cr
    rw [wait_retry oracle cr i 30 15 s hs hsne (by omega)]
    have hrec := ih (cr + 1) (min (i + i) 30) (by omega) (by omega)
    simp only []
    exact ⟨by rw [hrec.1], hrec.2⟩

/-- In the default recursive regime with interval already at `30`, every sleep
is `30`: one per remaining retry. -/
theorem wait_default_sleeps30 (oracle : Nat → Except ClientError String)
    (hok : ∀ n, ∃ s, oracle n = .ok s ∧ s ≠ "INSYNC") :
    ∀ d cr, 15 - cr = d → cr ≤ 15 →
      (wait_on_status oracle cr 30 30 15).sleeps = List.replicate d 30 := by
  intro d
  induction d with
  | zero =>
    intro cr h1 h2
    obtain ⟨s, hs, hsne⟩ := hok cr
    rw [wait_exhausted oracle cr 30 30 15 s hs hsne (by omega)]
    rfl
  | succ d ih =>
    intro cr h1 h2
    obtain ⟨s, hs, hsne⟩ := hok cr
    rw [wait_retry oracle cr 30 30 15 s hs hsne (by omega)]
    have hmin : min (30 + 30) 30 = 30 := by omega
    simp only [hmin]
    rw [ih (cr + 1) (by omega) (by omega)]
    rfl

/-- In the default recursive regime an error-free oracle makes the waiter
return the success record exactly when some query between the current retry
and retry 15 answers `INSYNC`. -/
theorem wait_default_success_iff (oracle : Nat → Except ClientError String)
    (hok : ∀ n, ∃ s, oracle n = .ok s) :
    ∀ d cr i, 15 - cr = d → cr ≤ 15 →
      ((wait_on_status oracle cr i 30 15).result = some ⟨true, ""⟩ ↔
        ∃ k, cr ≤ k ∧ k ≤ 15 ∧ oracle k = .ok "INSYNC") := by
  intro d
  induction d with
  | zero =>
    intro cr i h1 h2
    obtain ⟨s, hs⟩ := hok cr
    by_cases hsy : s = "INSYNC"
    · subst hsy
      rw [wait_insync oracle cr i 30 15 hs]
      exact iff_of_true rfl ⟨cr, le_refl cr, h2, hs⟩
    · rw [wait_exhausted oracle cr i 30 15 s hs hsy (by omega)]
      apply iff_of_false
      · simp
      · rintro ⟨k, hk1, hk2, hk3⟩
        have hk : k = cr := by omega
        rw [hk, hs] at hk3
        exact hsy (by injection hk3)
  | succ d ih =>
    intro cr i h1 h2
    obtain ⟨s, hs⟩ := hok cr
    by_cases hsy : s = "INSYNC"
    · subst hsy
      rw [wait_insync oracle cr i 30 15 hs]
      exact iff_of_true rfl ⟨cr, le_refl cr, h2, hs⟩
    · rw [wait_retry oracle cr i 30 15 s hs hsy (by omega)]
      simp only []
      rw [ih (cr + 1) (min (i + i) 30) (by omega) (by omega)]
      constructor
      · rintro ⟨k, hk1, hk2, hk3⟩
        exact ⟨k, by omega, hk2, hk3⟩
      · rintro ⟨k, hk1, hk2, hk3⟩
        rcases Nat.eq_or_lt_of_le hk1 with hk | hk
        · rw [← hk, hs] at hk3
          exact absurd (by injection hk3) hsy
        · exact ⟨k, hk, hk2, hk3⟩

/-- **C1** (counterexample).  The claim predicts that with `max_retries = 1`
and a status that never reaches `INSYNC`, `wait_on_status` fails after exactly
`max_retries + 1 = 2` status checks.  In fact it performs 16 checks, because
the recursive call does not pass `max_retries` through and the budget reverts
to the default 15 after the first check. -/
theorem C1_wait_counterexample :
    (wait_on_status pendingOracle 0 30 30 1).checks = 16 ∧
    (wait_on_status pendingOracle 0 30 30 1).checks ≠ 1 + 1 := by
  have h := wait_retry pendingOracle 0 30 30 1 "PENDING" rfl (by decide) (by omega)
  have h2 := wait_default_pending pendingOracle pendingOracle_ok 14 1
    (min (30 + 30) 30) (by omega) (by omega)
  rw [h]
  simp only []
  rw [h2.1]
  exact ⟨rfl, by decide⟩

/-- **C1** (amended).  For an oracle that never raises, the waiter called with
the default parameters returns the success record exactly when some status
check within the retry budget answers the terminal status `INSYNC`.  If the
status never reaches terminal, the waiter called with `current_retry = 0` and
an arbitrary `max_retries` returns the bounded failure record after exactly
one status check when `max_retries = 0`, and after exactly 16 checks
otherwise — not after `max_retries + 1` checks — because the recursive call
does not pass `max_retries` through, so every check after the first uses the
default budget of 15.  For the default `max_retries = 15` this is
`max_retries + 1 = 16` checks. -/
theorem C1_wait_terminal_amended (oracle : Nat → Except ClientError String)
    (hok : ∀ n, ∃ s, oracle n = .ok s) :
    ((wait_on_status oracle 0 30 30 15).result = some ⟨true, ""⟩ ↔
      ∃ k, k ≤ 15 ∧ oracle k = .ok "INSYNC") ∧
    ((∀ n, oracle n ≠ .ok "INSYNC") → ∀ mr i mi,
      (wait_on_status oracle 0 i mi mr).checks = (if mr = 0 then 1 else 16) ∧
      (wait_on_status oracle 0 i mi mr).result =
        some ⟨false, max_retries_reason (if mr = 0 then 0 else 15)⟩) := by
  constructor
  · rw [wait_default_success_iff oracle hok 15 0 30 rfl (by omega)]
    constructor
    · rintro ⟨k, _, hk2, hk3⟩
      exact ⟨k, hk2, hk3⟩
    · rintro ⟨k, hk2, hk3⟩
      exact ⟨k, Nat.zero_le k, hk2, hk3⟩
  · intro hnever mr i mi
    have hok2 : ∀ n, ∃ s, oracle n = .ok s ∧ s ≠ "INSYNC" := by
      intro n
      obtain ⟨s, hs⟩ := hok n
      refine ⟨s, hs, ?_⟩
      intro hsy
      exact hnever n (hsy ▸ hs)
    obtain ⟨s, hs, hsne⟩ := hok2 0
    rcases Nat.eq_zero_or_pos mr with hmr | hmr
    · subst hmr
      rw [wait_exhausted oracle 0 i mi 0 s hs hsne (by omega)]
      exact ⟨rfl, rfl⟩
    · rw [wait_retry oracle 0 i mi mr s hs hsne hmr]
      have h2 := wait_default_pending oracle hok2 14 1 (min (i + i) mi)
        (by omega) (by omega)
      simp only []
      rw [h2.1, h2.2]
      have hmr0 : ¬ mr = 0 := by omega
      simp [hmr0]

/-- **C1** (witness): the amended theorem instantiated on the constant
`PENDING` oracle with `max_retries = 1`. -/
theorem C1_wait_terminal_witness :
    ((wait_on_status pendingOracle 0 30 30 15).result = some ⟨true, ""⟩ ↔
      ∃ k, k ≤ 15 ∧ pendingOracle k = .ok "INSYNC") ∧
    (wait_on_status pendingOracle 0 30 30 1).checks = 16 := by
  have h := C1_wait_terminal_amended pendingOracle (fun _ => ⟨"PENDING", rfl⟩)
  refine ⟨h.1, ?_⟩
  have h2 := (h.2 (fun n => by simp [pendingOracle]) 1 30 30).1
  simpa using h2

/-- **C2** (counterexample).  The claim predicts that once
`interval ≥ max_interval` the interval stays constant across all further
retries: with `interval = max_interval = 40` every sleep should then be 40.
In fact the third sleep is 30, because the recursive call does not pass
`max_interval` through and the cap reverts to the default 30 after the first
retry. -/
theorem C2_backoff_counterexample :
    ((wait_on_status pendingOracle 0 40 40 15).sleeps)[2]? = some 30 ∧
    (30 : Nat) ≠ 40 := by
  have h0 := wait_retry pendingOracle 0 40 40 15 "PENDING" rfl (by decide) (by omega)
  have h1 := wait_retry pendingOracle 1 (min (40 + 40) 40) 30 15 "PENDING" rfl
    (by decide) (by omega)
  have h2 := wait_retry pendingOracle 2
    (min (min (40 + 40) 40 + min (40 + 40) 40) 30) 30 15 "PENDING" rfl
    (by decide) (by omega)
  rw [h0]
  simp only []
  rw [h1]
  simp only []
  rw [h2]
  exact ⟨by norm_num, by decide⟩

/-- **C2** (amended).  For a never-terminal status: the interval used on the
immediate next retry equals `min(2·interval, max_interval)` (the second sleep
of the run).  Because the recursive call does not pass `max_interval` (or
`max_retries`) through, later retries are clamped to the default cap 30; when
`max_interval` is the default 30 and `interval ≥ 30`, every retry after the
first sleeps exactly 30, i.e. the interval stays constant at the cap. -/
theorem C2_backoff_amended (oracle : Nat → Except ClientError String)
    (hok : ∀ n, ∃ s, oracle n = .ok s ∧ s ≠ "INSYNC") :
    (∀ i mi, i < mi →
      ((wait_on_status oracle 0 i mi 15).sleeps)[1]? = some (min (i + i) mi)) ∧
    (∀ i, 30 ≤ i →
      (wait_on_status oracle 0 i 30 15).sleeps = i :: List.replicate 14 30) := by
  constructor
  · intro i mi _
    obtain ⟨s0, hs0, hs0ne⟩ := hok 0
    obtain ⟨s1, hs1, hs1ne⟩ := hok 1
    rw [wait_retry oracle 0 i mi 15 s0 hs0 hs0ne (by omega)]
    simp only []
    rw [wait_retry oracle 1 (min (i + i) mi) 30 15 s1 hs1 hs1ne (by omega)]
    simp
  · intro i hi
    obtain ⟨s0, hs0, hs0ne⟩ := hok 0
    rw [wait_retry oracle 0 i 30 15 s0 hs0 hs0ne (by omega)]
    have hmin : min (i + i) 30 = 30 := by omega
    simp only [hmin]
    rw [wait_default_sleeps30 oracle hok 14 1 (by omega) (by omega)]

/-- **C2** (witness): the amended theorem instantiated on the constant
`PENDING` oracle, with `interval = 10 < 40 = max_interval` for the doubling
part and `interval = 40 ≥ 30` for the constancy part. -/
theorem C2_backoff_witness :
    ((wait_on_status pendingOracle 0 10 40 15).sleeps)[1]? =
      some (min (10 + 10) 40) ∧
    (wait_on_status pendingOracle 0 40 30 15).sleeps =
      40 :: List.replicate 14 30 := by
  have h := C2_backoff_amended pendingOracle pendingOracle_ok
  exact ⟨h.1 10 40 (by omega), h.2 40 (by omega)⟩

/-- **C3** (confirmed).  On a non-empty previous predicate collection the
matching scan looks only at the head: it returns the head when the `DataId`
fields agree and `None` otherwise, independently of every later previous
predicate (the tail `olds` does not occur on the right-hand side). -/
theorem C3_first_only_scan (new_pred old_pred : Predicate) (olds : List Predicate) :
    find_old_predicate new_pred (old_pred :: olds) =
      (if new_pred.DataId = old_pred.DataId then some old_pred else none) := rfl

/-- **C4** (code bug evidence).  With previous `MatchPredicates` stored (a
list) and a valid requested predicate ahead of the field-missing one, the
first valid predicate reaches `old_predicates.pop(old_predicate, None)`,
which on a list raises `TypeError` unconditionally: `update` crashes before
any validation message, and the crash is not the clean descriptive failure
the claim (and the spec) require — though, as claimed, no payload is emitted
and no service call is made.  The claimed behaviour is exhibited when the
invalid predicate is reached first, e.g. when no previous `MatchPredicates`
are stored (the `{}`-dict working collection): then the operation fails with
the message naming the predicate and its missing fields, submits nothing and
calls nothing. -/
theorem C4_missing_fields_vs_pop_crash :
    ((update_run aCrash envOkUpdate).outcome = .crashed typeErrorPop ∧
      MethodOutcome.crashed typeErrorPop ≠
        .failed (missing_message pBad (missing_fields pBad)) ∧
      (update_run aCrash envOkUpdate).submitted = none ∧
      (update_run aCrash envOkUpdate).calls = []) ∧
    ((update_run aBad envOkUpdate).outcome =
        .failed (missing_message pBad (missing_fields pBad)) ∧
      (update_run aBad envOkUpdate).submitted = none ∧
      (update_run aBad envOkUpdate).calls = []) :=
  ⟨⟨rfl, fun h => MethodOutcome.noConfusion h, rfl, rfl⟩, rfl, rfl, rfl⟩

/-- **C5** (confirmed).  With full removal requested the reconciler skips
matching entirely (the requested predicates do not occur on the right-hand
side): the insert list is empty and the delete list holds exactly one DELETE
entry per previous predicate, in order. -/
theorem C5_remove_all_deletes (old_predicates new_predicates : List Predicate) :
    update_lists true old_predicates new_predicates =
      .ok (old_predicates.map (fun p => ⟨"DELETE", p⟩), []) := rfl

/-- **C6** (code bug evidence).  For an update inserting one predicate into a
rule with no previous predicates, the payload submitted to
`update_rate_based_rule` carries as `Updates` the two-element list
`[deletes, inserts]` — a list of two nested lists — which differs from the
flat combined sequence `deletes ++ inserts` the spec (and the source's own
`# merge delete and insert set` comment) describe. -/
theorem C6_nested_updates_payload :
    (update_run aInsert envOkUpdate).submitted =
      some ⟨"rule-1", 2000,
        [.opList [], .opList [⟨"INSERT", p1⟩]], "token-1"⟩ ∧
    [UpdatesItem.opList [], .opList [⟨"INSERT", p1⟩]] ≠
      spec_updates_value [] [⟨"INSERT", p1⟩] := by
  constructor
  · have hlists : finish_lists (processNew [p1] none [] []) =
        .ok ([], [⟨"INSERT", p1⟩]) := rfl
    have hw : wait_on_status insyncOracle 0 30 30 15 =
        ⟨1, [], some ⟨true, ""⟩, false, none⟩ :=
      wait_insync insyncOracle 0 30 30 15 rfl
    simp [update_run, aInsert, envOkUpdate, update_submit, hlists, hw]
  · decide

/-- **C7** (confirmed).  When the service's delete call raises a `ClientError`
whose message contains `WAFNonexistentItemException`, `delete` signals success
(with an empty message), provided the preceding nested
`update(remove_all=True)` did not itself abort with an uncaught exception. -/
theorem C7_notfound_delete_success (a : UpdateArgs) (env : DeleteEnv)
    (t : String) (e : ClientError)
    (hu : (update_run { a with remove_all := true } env.updateEnv).outcome.isCrashed
      = false)
    (ht : env.get_change_token = .ok t)
    (hd : env.delete_rate_based_rule = .error e)
    (hm : containsSub e.message "WAFNonexistentItemException" = true) :
    (delete_run a env).outcome = .success "" := by
  unfold delete_run
  simp only []
  rcases hout : (update_run { a with remove_all := true } env.updateEnv).outcome
    with m | m | m
  · simp [hout, ht, hd, hm]
  · simp [hout, ht, hd, hm]
  · rw [hout] at hu
    simp [MethodOutcome.isCrashed] at hu

/-- **C7** (witness): deleting a rule the service reports as nonexistent. -/
theorem C7_notfound_delete_witness :
    (delete_run aInsert dEnvNotFound).outcome = .success "" := by
  have hw : wait_on_status insyncOracle 0 30 30 15 =
      ⟨1, [], some ⟨true, ""⟩, false, none⟩ :=
    wait_insync insyncOracle 0 30 30 15 rfl
  have hu : (update_run { aInsert with remove_all := true }
      dEnvNotFound.updateEnv).outcome.isCrashed = false := by
    simp [update_run, aInsert, dEnvNotFound, envOkUpdate, update_submit,
      update_lists, hw, MethodOutcome.isCrashed]
  exact C7_notfound_delete_success aInsert dEnvNotFound "token-d" _ hu rfl rfl
    (by decide)

/-- **C8** (confirmed).  A `ClientError` from the create call makes `create`
fail with the error text and set `physical_resource_id = 'failed-to-create'`;
a transport-level error while querying change-token status makes
`wait_on_status` record the failure (`self.fail` with the error text) and set
the same failed-to-create marker. -/
theorem C8_client_error_failures (a : CreateArgs) (env : CreateEnv)
    (t : String) (e e2 : ClientError)
    (oracle : Nat → Except ClientError String) (cr i mi mr : Nat)
    (ht : env.get_change_token = .ok t)
    (hc : env.create_rate_based_rule = .error e)
    (ho : oracle cr = .error e2) :
    ((create_run a env).outcome = .failed e.message ∧
      (create_run a env).physical_resource_id = some "failed-to-create") ∧
    ((wait_on_status oracle cr i mi mr).failMsg = some e2.message ∧
      (wait_on_status oracle cr i mi mr).failedToCreate = true) := by
  refine ⟨?_, ?_⟩
  · unfold create_run
    rw [ht, hc]
    exact ⟨rfl, rfl⟩
  · rw [wait_error oracle cr i mi mr e2 ho]
    exact ⟨rfl, rfl⟩

/-- **C8** (witness): a failing create call and a failing status query. -/
theorem C8_client_error_witness :
    ((create_run aCreate cEnvErr).outcome = .failed "CreateFailure" ∧
      (create_run aCreate cEnvErr).physical_resource_id =
        some "failed-to-create") ∧
    ((wait_on_status errOracle 0 30 30 15).failMsg =
        some "ConnectionError: transport failure" ∧
      (wait_on_status errOracle 0 30 30 15).failedToCreate = true) :=
  C8_client_error_failures aCreate cEnvErr "token-c" ⟨"CreateFailure"⟩
    ⟨"ConnectionError: transport failure"⟩ errOracle 0 30 30 15 rfl rfl rfl

/-- **C9** (confirmed).  On a transport-level error the waiter returns no
status record at all (`None`), and each caller — `create`, `update`,
`delete` — then subscripts that `None` with `'Success'`, raising a
`TypeError` that its `except ClientError` clause does not catch: the run ends
in an uncaught exception, not in a clean failure signal. -/
theorem C9_wait_none_crashes :
    (∀ (oracle : Nat → Except ClientError String) (cr i mi mr : Nat)
      (e : ClientError), oracle cr = .error e →
      (wait_on_status oracle cr i mi mr).result = none) ∧
    (∀ (a : CreateArgs) (env : CreateEnv) (t rid ct : String) (e : ClientError),
      env.get_change_token = .ok t → env.create_rate_based_rule = .ok (rid, ct) →
      env.statuses 0 = .error e →
      (create_run a env).outcome = .crashed typeErrorNone) ∧
    (∀ (a : UpdateArgs) (env : UpdateEnv) (t ct : String) (e : ClientError),
      a.remove_all = true → env.get_change_token = .ok t →
      env.update_rate_based_rule = .ok ct → env.statuses 0 = .error e →
      (update_run a env).outcome = .crashed typeErrorNone) ∧
    (∀ (a : UpdateArgs) (env : DeleteEnv) (t ct : String) (e : ClientError),
      (update_run { a with remove_all := true } env.updateEnv).outcome.isCrashed
        = false →
      env.get_change_token = .ok t → env.delete_rate_based_rule = .ok ct →
      env.statuses 0 = .error e →
      (delete_run a env).outcome = .crashed typeErrorNone) := by
  refine ⟨?_, ?_, ?_, ?_⟩
  · intro oracle cr i mi mr e ho
    rw [wait_error oracle cr i mi mr e ho]
  · intro a env t rid ct e ht hc ho
    have hw := wait_error env.statuses 0 30 30 15 e ho
    unfold create_run
    rw [ht, hc]
    simp [hw]
  · intro a env t ct e hra ht hc ho
    have hw := wait_error env.statuses 0 30 30 15 e ho
    simp [update_run, hra, update_submit, update_lists, ht, hc, hw]
  · intro a env t ct e hu ht hc ho
    have hw := wait_error env.statuses 0 30 30 15 e ho
    unfold delete_run
    simp only []
    rcases hout : (update_run { a with remove_all := true } env.updateEnv).outcome
      with m | m | m
    · simp [hout, ht, hc, hw]
    · simp [hout, ht, hc, hw]
    · rw [hout] at hu
      simp [MethodOutcome.isCrashed] at hu

/-- **C9** (witness): a failing status query under each of the four clauses. -/
theorem C9_wait_none_crashes_witness :
    (wait_on_status errOracle 0 30 30 15).result = none ∧
    (create_run aCreate cEnvStatusErr).outcome = .crashed typeErrorNone ∧
    (update_run { aInsert with remove_all := true } envErrStatusUpdate).outcome =
      .crashed typeErrorNone ∧
    (delete_run aInsert dEnvStatusErr).outcome = .crashed typeErrorNone := by
  refine ⟨?_, ?_, ?_, ?_⟩
  · exact C9_wait_none_crashes.1 errOracle 0 30 30 15
      ⟨"ConnectionError: transport failure"⟩ rfl
  · exact C9_wait_none_crashes.2.1 aCreate cEnvStatusErr "token-c" "rule-1"
      "ct-c" ⟨"ConnectionError: transport failure"⟩ rfl rfl rfl
  · exact C9_wait_none_crashes.2.2.1 { aInsert with remove_all := true }
      envErrStatusUpdate "token-1" "ct-1"
      ⟨"ConnectionError: transport failure"⟩ rfl rfl rfl rfl
  · have hw : wait_on_status insyncOracle 0 30 30 15 =
        ⟨1, [], some ⟨true, ""⟩, false, none⟩ :=
      wait_insync insyncOracle 0 30 30 15 rfl
    have hu : (update_run { aInsert with remove_all := true }
        dEnvStatusErr.updateEnv).outcome.isCrashed = false := by
      simp [update_run, aInsert, dEnvStatusErr, envOkUpdate, update_submit,
        update_lists, hw, MethodOutcome.isCrashed]
    exact C9_wait_none_crashes.2.2.2 aInsert dEnvStatusErr "token-d" "ct-d"
      ⟨"ConnectionError: transport failure"⟩ hu rfl rfl rfl

/-- **C10** (confirmed).  When the create call and its convergence wait
succeed and the request carries `Updates`, `create` runs the nested `update`
and then signals `'Create and update are done.'` from the (unchanged)
create-phase status record — even when the nested update itself signalled a
failure. -/
theorem C10_create_ignores_update_failure (a : CreateArgs) (env : CreateEnv)
    (t rid ct r : String)
    (ht : env.get_change_token = .ok t)
    (hc : env.create_rate_based_rule = .ok (rid, ct))
    (hw : (wait_on_status env.statuses 0 30 30 15).result = some ⟨true, ""⟩)
    (hup : a.hasUpdates = true)
    (hf : (update_run { a.updateArgs with physical_resource_id := rid }
      env.updateEnv).outcome = .failed r) :
    (create_run a env).outcome = .success "Create and update are done." := by
  unfold create_run
  rw [ht, hc]
  simp [hw, hup, hf]

/-- **C10** (witness): create converges at once but the nested update's
service call raises, so the nested update fails; create still signals
success. -/
theorem C10_create_ignores_update_failure_witness :
    (create_run aCreate cEnvUpdFail).outcome =
      .success "Create and update are done." := by
  have hw : (wait_on_status cEnvUpdFail.statuses 0 30 30 15).result =
      some ⟨true, ""⟩ := by
    rw [wait_insync cEnvUpdFail.statuses 0 30 30 15 rfl]
  have hf : (update_run { aCreate.updateArgs with physical_resource_id := "rule-1" }
      cEnvUpdFail.updateEnv).outcome = .failed "UpdateFailure" := rfl
  exact C10_create_ignores_update_failure aCreate cEnvUpdFail "token-c" "rule-1"
    "ct-c" "UpdateFailure" rfl rfl hw rfl hf

end RateBasedRuleProvider
